import Mathlib

/-!
Verification of the authentication core of the FastAPI boilerplate
(`src/app/core/security.py`, `src/app/core/utils/redis_storage.py`,
`src/app/api/v1/auth.py`, `src/app/api/v1/users.py`,
`src/app/api/dependencies.py`) through a shallow embedding in Lean 4.

Conventions of the embedding:
- JWTs are modelled as parsed values (`Jwt`): a token string is identified
  with its decoded content plus a flag recording whether its signature
  checks out under the process secret; a string that does not parse at all
  is `Jwt.malformed`.  `jose.jwt.decode` (which verifies signature and
  `exp` and raises `JWTError` on any failure) becomes `jwtDecode`.
- The relational stores (users, token blacklist, tiers, rate limits) are
  association lists; the `fastcrud` calls at each site are translated with
  the exact filters the call site passes (in particular, whether
  `is_deleted=False` is part of the lookup).
- Redis is an association list from key to value and absolute expiry;
  `GETDEL` (`RedisStorage.get` with `delete=True`) reads and removes in one
  step, and a key past its expiry is absent.
- Time is an explicit `now : Nat` parameter (seconds).
- Exceptions become `Except ApiError` results; handlers that mutate state
  return the mutated state alongside the result, reflecting that writes
  performed before an exception persist.
-/

namespace FastAPIAuth

/-- `TokenType` enum of `core/security.py` (lines 30-34). -/
inductive TokenType where
  | access
  | refresh
  | reset_password
  | verify_account
  deriving DecidableEq, Repr

/-- The string value of each enum member, as used in the Redis key
built by `f"{token_type}:{token}"` (both the writer in
`create_verification_token` and the reader in `verify_token_from_redis`
render the member the same way, so only consistency matters). -/
def TokenType.value : TokenType → String
  | .access => "access"
  | .refresh => "refresh"
  | .reset_password => "reset_password"
  | .verify_account => "verify_account"

/-- The claim set carried by a JWT: `sub`, `token_type`, `exp`
(absolute time in seconds). `sub` and `token_type` may be absent
(`payload.get` returns `None`). -/
structure JwtClaims where
  sub : Option String
  token_type : Option TokenType
  exp : Nat
  deriving DecidableEq, Repr

/-- A token string, identified with its parse: either a well-formed JWT
whose signature may or may not verify under the process secret, or a
string that does not parse as a JWT at all. -/
inductive Jwt where
  | signed (claims : JwtClaims) (validSignature : Bool)
  | malformed
  deriving DecidableEq, Repr

/-- `jose.jwt.decode(token, SECRET_KEY, algorithms=[ALGORITHM])`: returns
the payload when the token parses, the signature verifies and the `exp`
claim is still in the future; raises `JWTError` (here: `none`) otherwise. -/
def jwtDecode (t : Jwt) (now : Nat) : Option JwtClaims :=
  match t with
  | .malformed => none
  | .signed c validSignature => if validSignature ∧ now < c.exp then some c else none

/-- `TokenData` of `core/schemas.py` as used by `verify_token`. -/
structure TokenData where
  username_or_email : String
  deriving DecidableEq, Repr

/-- `verify_token` (`core/security.py` lines 111-143): the blacklist
existence check comes first; then the JWT is decoded (signature + expiry),
and the `sub` and `token_type` claims are checked.  Every failure path
returns `None`. -/
def verify_token (token_blacklist : List Jwt) (token : Jwt)
    (expected_token_type : TokenType) (now : Nat) : Option TokenData :=
  if token ∈ token_blacklist then none
  else
    match jwtDecode token now with
    | none => none
    | some payload =>
      match payload.sub with
      | none => none
      | some username_or_email =>
        if payload.token_type ≠ some expected_token_type then none
        else some { username_or_email := username_or_email }

/-- `blacklist_tokens` (`core/security.py` lines 146-167): iterates over
`[access_token, refresh_token]`, decoding each (which raises `JWTError` on
a malformed/invalid/expired token) and inserting a blacklist row.  The
returned pair is the blacklist after the call together with `true` when
both iterations completed; on an exception the insertions already made
persist and the flag is `false`. -/
def blacklist_tokens (token_blacklist : List Jwt) (access_token refresh_token : Jwt)
    (now : Nat) : List Jwt × Bool :=
  match jwtDecode access_token now with
  | none => (token_blacklist, false)
  | some _ =>
    let bl1 := access_token :: token_blacklist
    match jwtDecode refresh_token now with
    | none => (bl1, false)
    | some _ => (refresh_token :: bl1, true)

/-- `blacklist_token` (`core/security.py` lines 169-178), used by account
deletion: decode (may raise) then insert one row. -/
def blacklist_token (token_blacklist : List Jwt) (token : Jwt) (now : Nat) :
    List Jwt × Bool :=
  match jwtDecode token now with
  | none => (token_blacklist, false)
  | some _ => (token :: token_blacklist, true)

/-! ## Ephemeral token store (`core/utils/redis_storage.py`) -/

/-- The Redis keyspace: key, value, optional absolute expiry time. -/
abbrev RedisState := List (String × String × Option Nat)

/-- A key's live value at time `now`: present when the key is stored and
its expiry (if any) has not passed. -/
def redisLookup (s : RedisState) (now : Nat) (key : String) : Option String :=
  match s.find? (fun e => e.1 = key) with
  | some (_, v, some expiry) => if now < expiry then some v else none
  | some (_, v, none) => some v
  | none => none

/-- `RedisStorage.set` (lines 47-66): `SET key value EX expire`.  A
relative `expire` becomes an absolute expiry instant. -/
def RedisStorage.set (s : RedisState) (now : Nat) (key value : String)
    (expire : Option Nat) : RedisState :=
  (key, value, expire.map (fun e => now + e)) :: s.filter (fun e => e.1 ≠ key)

/-- `RedisStorage.get` (lines 68-88): with `delete=True` it is `GETDEL`,
an atomic read-and-remove; otherwise a plain `GET`.  Returns the value (or
`none` when absent/expired) and the keyspace afterwards. -/
def RedisStorage.get (s : RedisState) (now : Nat) (key : String)
    (del : Bool) : Option String × RedisState :=
  let value := redisLookup s now key
  if del then (value, s.filter (fun e => e.1 ≠ key))
  else (value, s)

/-- Expiry seconds computed by `create_verification_token`
(`core/security.py` lines 47-62): 30 minutes for reset-password, 7 days
for verify-account. -/
def verificationTokenExpire (token_type : TokenType) : Nat :=
  match token_type with
  | .reset_password => 30 * 60
  | _ => 7 * 24 * 60 * 60

/-- `create_verification_token` (lines 47-62): the fresh random UUID is an
explicit argument `token`; the email is stored under
`f"{token_type}:{token}"` with the type-dependent TTL. -/
def create_verification_token (s : RedisState) (now : Nat) (email : String)
    (token_type : TokenType) (token : String) : String × RedisState :=
  let key := token_type.value ++ ":" ++ token
  (token, RedisStorage.set s now key email (some (verificationTokenExpire token_type)))

/-- `verify_token_from_redis` (lines 65-71): `GETDEL` on the typed key;
the Python truthiness test `if email:` makes an empty string count as
absent. -/
def verify_token_from_redis (s : RedisState) (now : Nat) (token : String)
    (token_type : TokenType) : Option String × RedisState :=
  let key := token_type.value ++ ":" ++ token
  let res := RedisStorage.get s now key true
  match res.1 with
  | some email => (if email = "" then none else some email, res.2)
  | none => (none, res.2)

/-! ## Data model: principals, stores, application state -/

/-- A user row (`models/user.py` fields as consumed by the handlers in
`src/`): identity, credentials, activation / privilege / soft-delete
flags, tier assignment, last login instant. -/
structure Principal where
  id : Nat
  name : String
  username : String
  email : String
  hashed_password : String
  is_active : Bool
  is_superuser : Bool
  tier_id : Option Nat
  is_deleted : Bool
  last_login : Option Nat
  deriving DecidableEq, Repr

/-- The relational user store: rows plus the next id the database would
assign on insert. -/
structure DB where
  users : List Principal
  next_id : Nat
  deriving DecidableEq, Repr

/-- `crud_users.update(object={"is_active": ...}, id=...)`. -/
def crud_users_update_is_active (db : DB) (id : Nat) (active : Bool) : DB :=
  { db with users := db.users.map (fun u => if u.id = id then { u with is_active := active } else u) }

/-- `crud_users.update(object={"last_login": ...}, id=...)`. -/
def crud_users_update_last_login (db : DB) (id : Nat) (t : Nat) : DB :=
  { db with users := db.users.map (fun u => if u.id = id then { u with last_login := some t } else u) }

/-- A notification payload: `send_email(email=..., name=..., verification_code=...)`. -/
structure EmailJob where
  email : String
  name : String
  verification_code : String
  deriving DecidableEq, Repr

/-- The mutable shared state the auth handlers touch: the user store, the
token blacklist, the Redis keyspace, the `redis_queue` jobs and the
`BackgroundTasks` scheduled by request handlers. -/
structure AppState where
  db : DB
  token_blacklist : List Jwt
  redis : RedisState
  queue_jobs : List EmailJob
  background_tasks : List EmailJob
  deriving DecidableEq, Repr

/-- Error taxonomy of the orchestrator boundary.  Modelled from the spec:
the exception classes live in `core/exceptions/http_exceptions.py`, which
is not part of the sources given; the spec's section 7 taxonomy lists
`Unauthorized`, `Forbidden`, `NotFound`, `Conflict/DuplicateValue`,
`RateLimited` and `BadRequest` as the distinct kinds, and the handlers in
`src/` import `UnauthorizedException`, `ForbiddenException`,
`NotFoundException`, `DuplicateValueException`, `RateLimitException` and
`BadRequestException` as distinct classes. -/
inductive ApiError where
  | unauthorized (msg : String)
  | forbidden (msg : String)
  | notFound (msg : String)
  | duplicateValue (msg : String)
  | rateLimited (msg : String)
  | badRequest (msg : String)
  deriving DecidableEq, Repr

/-- The error kind of an `ApiError`, forgetting the message. -/
inductive ErrorKind where
  | unauthorized
  | forbidden
  | notFound
  | duplicateValue
  | rateLimited
  | badRequest
  deriving DecidableEq, Repr

def ApiError.kind : ApiError → ErrorKind
  | .unauthorized _ => .unauthorized
  | .forbidden _ => .forbidden
  | .notFound _ => .notFound
  | .duplicateValue _ => .duplicateValue
  | .rateLimited _ => .rateLimited
  | .badRequest _ => .badRequest

/-! ## Token issuance and authentication (`core/security.py`) -/

/-- `settings.ACCESS_TOKEN_EXPIRE_MINUTES`.  Modelled from the spec
(`core/config.py` is not in the sources given): a short access-token
lifetime in minutes; the concrete value is immaterial to the claims. -/
def ACCESS_TOKEN_EXPIRE_MINUTES : Nat := 30

/-- `settings.REFRESH_TOKEN_EXPIRE_DAYS`.  Modelled from the spec: a
longer refresh-token lifetime in days; the value is immaterial. -/
def REFRESH_TOKEN_EXPIRE_DAYS : Nat := 7

/-- `create_access_token` (lines 89-97): claims `{sub, token_type: ACCESS,
exp: now + delta-or-default}`, signed with the process secret. -/
def create_access_token (sub : String) (now : Nat) (expires_delta : Option Nat) : Jwt :=
  .signed { sub := some sub, token_type := some .access,
            exp := now + expires_delta.getD (ACCESS_TOKEN_EXPIRE_MINUTES * 60) } true

/-- `create_refresh_token` (lines 100-108): same shape with
`token_type: REFRESH` and the day-scale default lifetime. -/
def create_refresh_token (sub : String) (now : Nat) (expires_delta : Option Nat) : Jwt :=
  .signed { sub := some sub, token_type := some .refresh,
            exp := now + expires_delta.getD (REFRESH_TOKEN_EXPIRE_DAYS * 24 * 60 * 60) } true

/-- Python's `"@" in s`: membership of the `@` character among the
string's characters (single-character containment). -/
def containsAtSign (s : String) : Bool := s.data.contains '@'

/-- `authenticate_user` (lines 74-86): lookup by email when the input
contains `@`, else by username, both with `is_deleted=False`; then the
bcrypt check.  `bcrypt.checkpw` is an external library call and is passed
in as `checkpw`.  Python's `False` return becomes `none`. -/
def authenticate_user (checkpw : String → String → Bool) (db : DB)
    (username_or_email password : String) : Option Principal :=
  let db_user :=
    if containsAtSign username_or_email then
      db.users.find? (fun u => u.email = username_or_email ∧ u.is_deleted = false)
    else
      db.users.find? (fun u => u.username = username_or_email ∧ u.is_deleted = false)
  match db_user with
  | none => none
  | some u => if checkpw password u.hashed_password then some u else none

/-! ## Request handlers (`api/v1/auth.py`, `api/v1/users.py`,
`api/dependencies.py`) -/

/-- The access/refresh pair returned by login and refresh. -/
structure TokenPair where
  access_token : Jwt
  refresh_token : Jwt
  deriving DecidableEq, Repr

/-- `login_for_access_token` (`api/v1/auth.py` lines 43-83): authenticate
(generic Unauthorized on failure), reject inactive accounts with the
specific activation message, issue the pair, record `last_login`. -/
def login_for_access_token (checkpw : String → String → Bool) (st : AppState)
    (now : Nat) (username password : String) : Except ApiError TokenPair × AppState :=
  match authenticate_user checkpw st.db username password with
  | none => (.error (.unauthorized "Wrong username, email or password."), st)
  | some user =>
    if user.is_active = false then
      (.error (.unauthorized "Account is not activated. Please verify your email first."), st)
    else
      let access_token := create_access_token user.username now (some (ACCESS_TOKEN_EXPIRE_MINUTES * 60))
      let refresh_token := create_refresh_token user.username now none
      (.ok { access_token := access_token, refresh_token := refresh_token },
       { st with db := crud_users_update_last_login st.db user.id now })

/-- `refresh_access_token` (`api/v1/auth.py` lines 86-112): verify the
presented token as REFRESH, re-fetch the user by username *without* an
`is_deleted` filter, reject missing/inactive users, then issue a fresh
pair.  (The `if not refresh_token` empty-string guard is subsumed by
`Jwt.malformed`, which likewise fails verification.) -/
def refresh_access_token (st : AppState) (now : Nat) (refresh_token : Jwt) :
    Except ApiError TokenPair :=
  match verify_token st.token_blacklist refresh_token .refresh now with
  | none => .error (.unauthorized "Invalid refresh token.")
  | some user_data =>
    match st.db.users.find? (fun u => u.username = user_data.username_or_email) with
    | none => .error (.unauthorized "User is not active.")
    | some user =>
      if user.is_active = false then .error (.unauthorized "User is not active.")
      else .ok { access_token := create_access_token user_data.username_or_email now none,
                 refresh_token := create_refresh_token user_data.username_or_email now none }

/-- `logout` (`api/v1/auth.py` lines 115-137): `blacklist_tokens` on the
presented access and refresh tokens; a `JWTError` inside is caught and
re-raised as `Unauthorized("Invalid token.")`, with the rows already
inserted remaining in the blacklist. -/
def logout (st : AppState) (access_token refresh_token : Jwt) (now : Nat) :
    Except ApiError String × AppState :=
  let res := blacklist_tokens st.token_blacklist access_token refresh_token now
  let st' := { st with token_blacklist := res.1 }
  if res.2 then (.ok "Logged out successfully", st')
  else (.error (.unauthorized "Invalid token."), st')

/-- `register_user` (`api/v1/auth.py` lines 140-176): reject taken
username/email with `BadRequestException`; create the principal with
`is_active=False`, `is_superuser=False`, `last_login=None`; issue a
VERIFY_ACCOUNT code (the fresh UUID is the argument `fresh_code`) and
enqueue the notification job.  `hash` stands for `get_password_hash`. -/
def register_user (st : AppState) (now : Nat) (username email name password : String)
    (fresh_code : String) (hash : String → String) : Except ApiError String × AppState :=
  if st.db.users.any (fun u => u.username = username) then
    (.error (.badRequest "Username already exists"), st)
  else if st.db.users.any (fun u => u.email = email) then
    (.error (.badRequest "Email already exists"), st)
  else
    let user : Principal :=
      { id := st.db.next_id, name := name, username := username, email := email,
        hashed_password := hash password, is_active := false, is_superuser := false,
        tier_id := none, is_deleted := false, last_login := none }
    let db' : DB := { users := st.db.users ++ [user], next_id := st.db.next_id + 1 }
    let res := create_verification_token st.redis now user.email .verify_account fresh_code
    (.ok "User registered successfully. Please check your email for verification.",
     { st with db := db', redis := res.2,
               queue_jobs := st.queue_jobs ++ [{ email := user.email, name := user.name, verification_code := res.1 }] })

/-- `create_user` (`api/v1/users.py` lines 110-131, superuser endpoint):
the same duplicate checks but via `DuplicateValueException`, email first. -/
def create_user (st : AppState) (username email name password : String)
    (hash : String → String) : Except ApiError Principal × AppState :=
  if st.db.users.any (fun u => u.email = email) then
    (.error (.duplicateValue "Email is already registered"), st)
  else if st.db.users.any (fun u => u.username = username) then
    (.error (.duplicateValue "Username not available"), st)
  else
    let user : Principal :=
      { id := st.db.next_id, name := name, username := username, email := email,
        hashed_password := hash password, is_active := true, is_superuser := false,
        tier_id := none, is_deleted := false, last_login := none }
    (.ok user, { st with db := { users := st.db.users ++ [user], next_id := st.db.next_id + 1 } })

/-- `verify_account` (`api/v1/auth.py` lines 184-203): consume the
VERIFY_ACCOUNT code from Redis (GETDEL), map to email, look the user up
by email (no `is_deleted` filter at this call site), return early when
already active, otherwise flip `is_active`. -/
def verify_account (st : AppState) (now : Nat) (token : String) :
    Except ApiError String × AppState :=
  let res := verify_token_from_redis st.redis now token .verify_account
  let st' := { st with redis := res.2 }
  match res.1 with
  | none => (.error (.badRequest "Invalid or expired verification token"), st')
  | some email =>
    match st'.db.users.find? (fun u => u.email = email) with
    | none => (.error (.notFound "User not found"), st')
    | some user =>
      if user.is_active then (.ok "Account already verified", st')
      else (.ok "Account verified successfully",
            { st' with db := crud_users_update_is_active st'.db user.id true })

/-- `request_password_reset` (`api/v1/auth.py` lines 206-228): look the
user up by email; when absent, return the uniform message with no state
change at all; when present, store a RESET_PASSWORD code and schedule the
notification as a background task, returning the same message. -/
def request_password_reset (st : AppState) (now : Nat) (email : String)
    (fresh_code : String) : String × AppState :=
  match st.db.users.find? (fun u => u.email = email) with
  | none => ("If your email is registered, you will receive password reset instructions", st)
  | some user =>
    let res := create_verification_token st.redis now user.email .reset_password fresh_code
    ("If your email is registered, you will receive password reset instructions",
     { st with redis := res.2,
               background_tasks := st.background_tasks ++ [{ email := user.email, name := user.name, verification_code := res.1 }] })

/-- `get_current_user` (`api/dependencies.py` lines 24-51): verify as
ACCESS, look up by email/username with `is_deleted=False`, reject missing
or inactive users. -/
def get_current_user (st : AppState) (now : Nat) (token : Jwt) :
    Except ApiError Principal :=
  match verify_token st.token_blacklist token .access now with
  | none => .error (.unauthorized "User not authenticated.")
  | some token_data =>
    let user :=
      if containsAtSign token_data.username_or_email then
        st.db.users.find? (fun u => u.email = token_data.username_or_email ∧ u.is_deleted = false)
      else
        st.db.users.find? (fun u => u.username = token_data.username_or_email ∧ u.is_deleted = false)
    match user with
    | none => .error (.unauthorized "User not found or has been deleted.")
    | some u =>
      if u.is_active = false then
        .error (.unauthorized "Account is not activated. Please verify your email first.")
      else .ok u

/-! ## Rate limiting (`api/dependencies.py` lines 105-135) -/

/-- A tier row as consumed by `rate_limiter_dependency`. -/
structure Tier where
  id : Nat
  name : String
  deriving DecidableEq, Repr

/-- A rate-limit rule row: `{tier_id, path, limit, period}`. -/
structure RateLimitRule where
  tier_id : Nat
  path : String
  limit : Nat
  period : Nat
  deriving DecidableEq, Repr

/-- The key a request is counted under: subject id for authenticated
callers, client network address otherwise. -/
inductive RateKey where
  | user_id (id : Nat)
  | host (h : String)
  deriving DecidableEq, Repr

/-- `crud_tiers.get(db, id=user["tier_id"])`: a `None` tier id matches no
row. -/
def crud_tiers_get (tiers : List Tier) (tier_id : Option Nat) : Option Tier :=
  match tier_id with
  | some tid => tiers.find? (fun t => t.id = tid)
  | none => none

/-- The (key, limit, period) resolution of `rate_limiter_dependency`
(lines 105-135), for an already-normalized `path`: a tier-specific rule on
the exact path when the user has a tier and the rule exists, otherwise the
process-wide default; unauthenticated callers are keyed by client host
under the default. -/
def rate_limiter_resolve (tiers : List Tier) (rate_limits : List RateLimitRule)
    (default_limit default_period : Nat) (user : Option Principal)
    (client_host path : String) : RateKey × Nat × Nat :=
  match user with
  | some user =>
    match crud_tiers_get tiers user.tier_id with
    | some tier =>
      match rate_limits.find? (fun r => r.tier_id = tier.id ∧ r.path = path) with
      | some rate_limit => (.user_id user.id, rate_limit.limit, rate_limit.period)
      | none => (.user_id user.id, default_limit, default_period)
    | none => (.user_id user.id, default_limit, default_period)
  | none => (.host client_host, default_limit, default_period)

/-! ## Theorems -/

/-- Any token present in the blacklist fails verification: the existence
check precedes every other check in `verify_token`. -/
theorem verify_token_mem_blacklist (bl : List Jwt) (t : Jwt) (tt : TokenType)
    (now : Nat) (h : t ∈ bl) : verify_token bl t tt now = none := by
  simp [verify_token, h]

/-- When `blacklist_tokens` completes, both tokens are in the blacklist. -/
theorem blacklist_tokens_ok_mem (bl : List Jwt) (a r : Jwt) (now : Nat)
    (h : (blacklist_tokens bl a r now).2 = true) :
    a ∈ (blacklist_tokens bl a r now).1 ∧ r ∈ (blacklist_tokens bl a r now).1 := by
  unfold blacklist_tokens at *
  cases ha : jwtDecode a now <;> cases hr : jwtDecode r now <;>
    simp [ha, hr] at h ⊢

/-- C1: a blacklisted token never verifies — `verify_token` consults the
blacklist before trusting the token, so for any token in the blacklist
(whatever its signature validity or remaining lifetime) and any expected
type the result is `none`; in particular both tokens revoked by a
completed `blacklist_tokens` (logout) fail every subsequent verification. -/
theorem C1_blacklisted_token_never_verifies
    (bl : List Jwt) (a r t : Jwt) (now now2 : Nat) (tt : TokenType) (h : t ∈ bl) :
    verify_token bl t tt now2 = none
    ∧ ((blacklist_tokens bl a r now).2 = true →
        verify_token (blacklist_tokens bl a r now).1 a tt now2 = none
        ∧ verify_token (blacklist_tokens bl a r now).1 r tt now2 = none) :=
  ⟨verify_token_mem_blacklist bl t tt now2 h,
   fun hok =>
     ⟨verify_token_mem_blacklist _ a tt now2 (blacklist_tokens_ok_mem bl a r now hok).1,
      verify_token_mem_blacklist _ r tt now2 (blacklist_tokens_ok_mem bl a r now hok).2⟩⟩

/-- Witness for C1 at a concrete input: a revoked (even malformed) token
fails verification, and after a successful logout both revoked tokens
fail verification. -/
theorem C1_witness :
    verify_token [Jwt.malformed] Jwt.malformed .access 0 = none
    ∧ ((blacklist_tokens [Jwt.malformed]
          (Jwt.signed { sub := some "alice", token_type := some .access, exp := 100 } true)
          (Jwt.signed { sub := some "alice", token_type := some .refresh, exp := 200 } true) 0).2 = true →
        verify_token (blacklist_tokens [Jwt.malformed]
          (Jwt.signed { sub := some "alice", token_type := some .access, exp := 100 } true)
          (Jwt.signed { sub := some "alice", token_type := some .refresh, exp := 200 } true) 0).1
          (Jwt.signed { sub := some "alice", token_type := some .access, exp := 100 } true) .access 50 = none
        ∧ verify_token (blacklist_tokens [Jwt.malformed]
          (Jwt.signed { sub := some "alice", token_type := some .access, exp := 100 } true)
          (Jwt.signed { sub := some "alice", token_type := some .refresh, exp := 200 } true) 0).1
          (Jwt.signed { sub := some "alice", token_type := some .refresh, exp := 200 } true) .access 50 = none) :=
  C1_blacklisted_token_never_verifies [Jwt.malformed]
    (Jwt.signed { sub := some "alice", token_type := some .access, exp := 100 } true)
    (Jwt.signed { sub := some "alice", token_type := some .refresh, exp := 200 } true)
    Jwt.malformed 0 50 .access (by simp)

/-- C6: `verify_token` fails uniformly — whenever decoding fails (bad
signature, expired, malformed), the `sub` claim is missing, or the
declared `token_type` differs from the expected type, the result is the
single `none` outcome. -/
theorem C6_verify_token_uniform_invalid
    (bl : List Jwt) (t : Jwt) (tt : TokenType) (now : Nat)
    (h : jwtDecode t now = none
       ∨ ∃ c, jwtDecode t now = some c ∧ (c.sub = none ∨ c.token_type ≠ some tt)) :
    verify_token bl t tt now = none := by
  by_cases hmem : t ∈ bl
  · simp [verify_token, hmem]
  · rcases h with h | ⟨c, hc, hsub | hty⟩
    · simp [verify_token, hmem, h]
    · simp [verify_token, hmem, hc, hsub]
    · cases hs : c.sub <;> simp [verify_token, hmem, hc, hs, hty]

/-- Witness for C6: a well-signed, unexpired token whose declared type is
ACCESS never verifies as REFRESH. -/
theorem C6_witness :
    verify_token [] (Jwt.signed { sub := some "alice", token_type := some .access, exp := 10 } true)
      .refresh 0 = none :=
  C6_verify_token_uniform_invalid []
    (Jwt.signed { sub := some "alice", token_type := some .access, exp := 10 } true) .refresh 0
    (Or.inr ⟨{ sub := some "alice", token_type := some .access, exp := 10 },
      by simp [jwtDecode], Or.inr (by simp)⟩)

/-- A key never survives the filter that `GETDEL` applies. -/
theorem redis_find_filter_ne (l : RedisState) (k : String) :
    (l.filter (fun e => e.1 ≠ k)).find? (fun e => e.1 = k) = none := by
  rw [List.find?_eq_none]
  intro x hx
  have := List.of_mem_filter hx
  simpa using this

/-- C2: one-time codes are consumed exactly once — after `put(k,v,ttl)`
at `t0`, a consuming `get` at `t1` inside the TTL window returns `v` and
removes the key, and any later consuming `get` (at any time `t2`) returns
absent. -/
theorem C2_one_time_code_consumed_once (s : RedisState) (k v : String)
    (ttl t0 t1 t2 : Nat) (h1 : t1 < t0 + ttl) :
    (RedisStorage.get (RedisStorage.set s t0 k v (some ttl)) t1 k true).1 = some v
    ∧ (RedisStorage.get
        (RedisStorage.get (RedisStorage.set s t0 k v (some ttl)) t1 k true).2
        t2 k true).1 = none := by
  constructor
  · simp [RedisStorage.set, RedisStorage.get, redisLookup, h1]
  · show redisLookup ((RedisStorage.set s t0 k v (some ttl)).filter (fun e => e.1 ≠ k)) t2 k = none
    unfold redisLookup
    rw [redis_find_filter_ne]

/-- Witness for C2 at a concrete input. -/
theorem C2_witness :
    (RedisStorage.get (RedisStorage.set [] 0 "verify_account:c1" "a@x.com" (some 10)) 5
        "verify_account:c1" true).1 = some "a@x.com"
    ∧ (RedisStorage.get
        (RedisStorage.get (RedisStorage.set [] 0 "verify_account:c1" "a@x.com" (some 10)) 5
          "verify_account:c1" true).2
        99 "verify_account:c1" true).1 = none :=
  C2_one_time_code_consumed_once [] "verify_account:c1" "a@x.com" 10 0 5 99 (by decide)

/-- C7: when revoking the second (refresh) token fails — it does not
decode — logout surfaces `Unauthorized("Invalid token.")` instead of
success, while the first (access) token remains revoked in the blacklist. -/
theorem C7_logout_partial_revocation_fails
    (st : AppState) (access_token refresh_token : Jwt) (now : Nat)
    (ha : jwtDecode access_token now ≠ none)
    (hr : jwtDecode refresh_token now = none) :
    (logout st access_token refresh_token now).1
      = .error (.unauthorized "Invalid token.")
    ∧ access_token ∈ (logout st access_token refresh_token now).2.token_blacklist := by
  obtain ⟨c, hc⟩ := Option.ne_none_iff_exists'.mp ha
  simp [logout, blacklist_tokens, hc, hr]

/-- Witness for C7: a valid access token together with a malformed
refresh token makes logout fail while the access token is revoked. -/
theorem C7_witness :
    (logout { db := { users := [], next_id := 1 }, token_blacklist := [], redis := [],
              queue_jobs := [], background_tasks := [] }
        (Jwt.signed { sub := some "alice", token_type := some .access, exp := 100 } true)
        Jwt.malformed 0).1 = .error (.unauthorized "Invalid token.")
    ∧ (Jwt.signed { sub := some "alice", token_type := some .access, exp := 100 } true)
        ∈ (logout { db := { users := [], next_id := 1 }, token_blacklist := [], redis := [],
                    queue_jobs := [], background_tasks := [] }
            (Jwt.signed { sub := some "alice", token_type := some .access, exp := 100 } true)
            Jwt.malformed 0).2.token_blacklist :=
  C7_logout_partial_revocation_fails _ _ _ 0 (by simp [jwtDecode]) rfl

/-- The keyspace left by `verify_token_from_redis` is the input keyspace
with the consulted key removed (GETDEL consumes unconditionally). -/
theorem verify_token_from_redis_snd (s : RedisState) (now : Nat) (token : String)
    (t : TokenType) :
    (verify_token_from_redis s now token t).2
      = s.filter (fun e => e.1 ≠ (t.value ++ ":" ++ token)) := by
  simp only [verify_token_from_redis, RedisStorage.get]
  cases h : redisLookup s now (t.value ++ ":" ++ token) with
  | none => simp [h]
  | some email => simp [h]

/-- After one consuming read, a second read of the same code always
reports absent. -/
theorem verify_token_from_redis_after_consume (s : RedisState) (now now2 : Nat)
    (token : String) (t : TokenType) :
    (verify_token_from_redis ((verify_token_from_redis s now token t).2) now2 token t).1
      = none := by
  rw [verify_token_from_redis_snd]
  have hlook : redisLookup (s.filter (fun e => e.1 ≠ (t.value ++ ":" ++ token))) now2
      (t.value ++ ":" ++ token) = none := by
    unfold redisLookup
    rw [redis_find_filter_ne]
  simp only [verify_token_from_redis, RedisStorage.get]
  simp only [ne_eq, decide_not] at hlook
  simp [hlook]

/-- The Redis keyspace field of the state after `verify_account` is the
consumed keyspace, in every branch. -/
theorem verify_account_state_fields (st : AppState) (now : Nat) (code : String) :
    (verify_account st now code).2.redis
      = (verify_token_from_redis st.redis now code .verify_account).2
    ∧ (verify_account st now code).2.queue_jobs = st.queue_jobs
    ∧ (verify_account st now code).2.background_tasks = st.background_tasks := by
  unfold verify_account
  cases h : (verify_token_from_redis st.redis now code .verify_account).1 with
  | none => simp [h]
  | some email =>
    cases hf : st.db.users.find? (fun u => u.email = email) with
    | none => simp [h, hf]
    | some user =>
      by_cases ha : user.is_active <;> simp [h, hf, ha]

/-- `verify_account` fails with the uniform BadRequest when the presented
code is absent from (or expired in) the ephemeral store. -/
theorem verify_account_fails_of_absent (st : AppState) (now : Nat) (code : String)
    (h : (verify_token_from_redis st.redis now code .verify_account).1 = none) :
    (verify_account st now code).1
      = .error (.badRequest "Invalid or expired verification token") := by
  unfold verify_account
  simp [h]

/-- Concrete inactive principal used as the C3 counterexample subject. -/
def aliceInactive : Principal :=
  { id := 1, name := "Alice", username := "alice", email := "a@x.com",
    hashed_password := "hashed:pw", is_active := false, is_superuser := false,
    tier_id := none, is_deleted := false, last_login := none }

/-- C3 counterexample state: Alice is not yet active and a live
VERIFY_ACCOUNT code `code123` for her email sits in Redis. -/
def c3State : AppState :=
  { db := { users := [aliceInactive], next_id := 2 },
    token_blacklist := [],
    redis := [("verify_account:code123", "a@x.com", some 1000)],
    queue_jobs := [], background_tasks := [] }

/-- C3 counterexample: the first verify-account with the correct code
succeeds, but repeating the very same operation afterwards does *not*
return success — the one-time code was consumed by the first call, so the
repeat fails with `BadRequest("Invalid or expired verification token")`,
refuting the claim that the repeat again returns success. -/
theorem C3_counterexample :
    (verify_account c3State 0 "code123").1 = .ok "Account verified successfully"
    ∧ (verify_account (verify_account c3State 0 "code123").2 0 "code123").1
        = .error (.badRequest "Invalid or expired verification token") :=
  ⟨rfl, rfl⟩

/-- C3 amended: a first verify-account with a correct code succeeds and
flips `is_active` (or returns success without changes when already
active), and the handler never dispatches a notification; but the
operation is not repeatable with the same code — the code is consumed, so
the repeated call fails with BadRequest; only a repeat presenting another
still-valid code observes the already-active success. -/
theorem C3_verify_account_amended (st : AppState) (now now2 : Nat) (code : String) :
    ((verify_account (verify_account st now code).2 now2 code).1
        = .error (.badRequest "Invalid or expired verification token"))
    ∧ (∀ e u, (verify_token_from_redis st.redis now code .verify_account).1 = some e →
        st.db.users.find? (fun x => x.email = e) = some u →
        (u.is_active = true →
          (verify_account st now code).1 = .ok "Account already verified"
          ∧ (verify_account st now code).2.db = st.db)
        ∧ (u.is_active = false →
          (verify_account st now code).1 = .ok "Account verified successfully"
          ∧ (verify_account st now code).2.db
              = crud_users_update_is_active st.db u.id true))
    ∧ (verify_account st now code).2.queue_jobs = st.queue_jobs
    ∧ (verify_account st now code).2.background_tasks = st.background_tasks := by
  refine ⟨?_, ?_, (verify_account_state_fields st now code).2.1,
          (verify_account_state_fields st now code).2.2⟩
  · apply verify_account_fails_of_absent
    rw [(verify_account_state_fields st now code).1]
    exact verify_token_from_redis_after_consume st.redis now now2 code .verify_account
  · intro e u hget hfind
    constructor
    · intro ha
      unfold verify_account
      simp [hget, hfind, ha]
    · intro ha
      unfold verify_account
      simp [hget, hfind, ha]

/-- Concrete already-active principal for the C3 witness. -/
def aliceActive : Principal :=
  { id := 1, name := "Alice", username := "alice", email := "a@x.com",
    hashed_password := "hashed:pw", is_active := true, is_superuser := false,
    tier_id := none, is_deleted := false, last_login := none }

/-- Witness state for C3: Alice already active, a live code `code9`. -/
def c3ActiveState : AppState :=
  { db := { users := [aliceActive], next_id := 2 },
    token_blacklist := [],
    redis := [("verify_account:code9", "a@x.com", some 1000)],
    queue_jobs := [], background_tasks := [] }

/-- Witness for the amended C3 at a concrete input: a valid code for an
already-active account returns success without touching the user store,
and the repeated call with the consumed code fails with BadRequest. -/
theorem C3_witness :
    (verify_account c3ActiveState 0 "code9").1 = .ok "Account already verified"
    ∧ (verify_account c3ActiveState 0 "code9").2.db = c3ActiveState.db
    ∧ (verify_account (verify_account c3ActiveState 0 "code9").2 0 "code9").1
        = .error (.badRequest "Invalid or expired verification token") := by
  have h := C3_verify_account_amended c3ActiveState 0 0 "code9"
  have h2 := (h.2.1 "a@x.com" aliceActive rfl rfl).1 rfl
  exact ⟨h2.1, h2.2, h.1⟩

/-- C4 counterexample state: Alice's username is taken. -/
def c4State : AppState :=
  { db := { users := [aliceInactive], next_id := 2 },
    token_blacklist := [], redis := [], queue_jobs := [], background_tasks := [] }

/-- C4 counterexample: registering with the already-taken username
`alice` fails with the `BadRequest` error kind
(`BadRequestException("Username already exists")`), which is not the
`Conflict/DuplicateValue` kind the claim requires. -/
theorem C4_counterexample :
    (register_user c4State 0 "alice" "other@x.com" "Other" "Str1ngst!" "code1"
        (fun p => "hashed:" ++ p)).1
      = .error (.badRequest "Username already exists")
    ∧ ApiError.kind (.badRequest "Username already exists") ≠ ErrorKind.duplicateValue :=
  ⟨rfl, by decide⟩

/-- C4 amended: a register request with a taken username or email fails —
but with the `BadRequest` error kind, not `Conflict/DuplicateValue` — and
creates no principal (the state is untouched); it is the superuser
`create_user` endpoint that rejects the same collision with the
`DuplicateValue` kind, likewise creating nothing. -/
theorem C4_register_duplicate_amended (st : AppState) (now : Nat)
    (username email name password fresh_code : String) (hash : String → String)
    (h : st.db.users.any (fun u => u.username = username) = true
       ∨ st.db.users.any (fun u => u.email = email) = true) :
    (∃ m, (register_user st now username email name password fresh_code hash).1
        = .error (.badRequest m))
    ∧ (register_user st now username email name password fresh_code hash).2 = st
    ∧ (∃ m, (create_user st username email name password hash).1
        = .error (.duplicateValue m))
    ∧ (create_user st username email name password hash).2 = st := by
  by_cases hu : st.db.users.any (fun u => u.username = username) = true
  · by_cases he : st.db.users.any (fun u => u.email = email) = true
    · exact ⟨⟨"Username already exists", by simp [register_user, hu]⟩,
        by simp [register_user, hu],
        ⟨"Email is already registered", by simp [create_user, he]⟩,
        by simp [create_user, he]⟩
    · exact ⟨⟨"Username already exists", by simp [register_user, hu]⟩,
        by simp [register_user, hu],
        ⟨"Username not available", by simp [create_user, he, hu]⟩,
        by simp [create_user, he, hu]⟩
  · have he : st.db.users.any (fun u => u.email = email) = true := by tauto
    exact ⟨⟨"Email already exists", by simp [register_user, hu, he]⟩,
      by simp [register_user, hu, he],
      ⟨"Email is already registered", by simp [create_user, he]⟩,
      by simp [create_user, he]⟩

/-- Witness for the amended C4 at a concrete input: username `alice` is
taken, register fails as BadRequest with no state change, `create_user`
fails as DuplicateValue with no state change. -/
theorem C4_witness :
    (∃ m, (register_user c4State 0 "alice" "b@x.com" "B" "Str1ngst2!" "code2"
        (fun p => "hashed:" ++ p)).1 = .error (.badRequest m))
    ∧ (register_user c4State 0 "alice" "b@x.com" "B" "Str1ngst2!" "code2"
        (fun p => "hashed:" ++ p)).2 = c4State
    ∧ (∃ m, (create_user c4State "alice" "b@x.com" "B" "Str1ngst2!"
        (fun p => "hashed:" ++ p)).1 = .error (.duplicateValue m))
    ∧ (create_user c4State "alice" "b@x.com" "B" "Str1ngst2!"
        (fun p => "hashed:" ++ p)).2 = c4State :=
  C4_register_duplicate_amended c4State 0 "alice" "b@x.com" "B" "Str1ngst2!" "code2"
    (fun p => "hashed:" ++ p) (Or.inl (by decide))

/-- C5: request-password-reset is enumeration-safe — the returned message
is the same for any two runs (registered or not), and a run on an
unregistered email leaves the whole state untouched: no reset code is
stored in Redis and no notification is scheduled. -/
theorem C5_password_reset_enumeration_safe
    (st1 st2 : AppState) (now1 now2 : Nat) (e1 e2 c1 c2 : String)
    (h : st2.db.users.find? (fun u => u.email = e2) = none) :
    (request_password_reset st1 now1 e1 c1).1 = (request_password_reset st2 now2 e2 c2).1
    ∧ (request_password_reset st2 now2 e2 c2).2 = st2 := by
  constructor
  · unfold request_password_reset
    cases hf : st1.db.users.find? (fun u => u.email = e1) <;> simp [hf, h]
  · unfold request_password_reset
    simp [h]

/-- Witness state for C5: only Alice is registered. -/
def c5State : AppState :=
  { db := { users := [aliceActive], next_id := 2 },
    token_blacklist := [], redis := [], queue_jobs := [], background_tasks := [] }

/-- Witness for C5: a registered-email run and an unregistered-email run
return the identical message, and the unregistered run changes nothing. -/
theorem C5_witness :
    (request_password_reset c5State 0 "a@x.com" "r1").1
      = (request_password_reset c5State 5 "nobody@x.com" "r2").1
    ∧ (request_password_reset c5State 5 "nobody@x.com" "r2").2 = c5State :=
  C5_password_reset_enumeration_safe c5State c5State 0 5 "a@x.com" "nobody@x.com"
    "r1" "r2" (by decide)

/-- Characterization of a successful `authenticate_user`: the principal
is not soft-deleted, its password hash checks out, and the lookup was by
email when the input contains `@`, else by username. -/
theorem authenticate_user_some (checkpw : String → String → Bool) (db : DB)
    (username_or_email password : String) (u : Principal)
    (h : authenticate_user checkpw db username_or_email password = some u) :
    u.is_deleted = false ∧ checkpw password u.hashed_password = true
    ∧ (containsAtSign username_or_email = true → u.email = username_or_email)
    ∧ (containsAtSign username_or_email = false → u.username = username_or_email) := by
  unfold authenticate_user at h
  by_cases hc : containsAtSign username_or_email = true
  · rw [if_pos hc] at h
    cases hf : db.users.find? (fun x => x.email = username_or_email ∧ x.is_deleted = false) with
    | none => rw [hf] at h; simp at h
    | some r =>
      rw [hf] at h
      simp only [Option.ite_none_right_eq_some, Option.some.injEq] at h
      obtain ⟨hcp, rfl⟩ := h
      have hp := List.find?_some hf
      simp only [decide_eq_true_eq] at hp
      exact ⟨hp.2, hcp, fun _ => hp.1, fun hx => by rw [hc] at hx; cases hx⟩
  · rw [if_neg hc] at h
    cases hf : db.users.find? (fun x => x.username = username_or_email ∧ x.is_deleted = false) with
    | none => rw [hf] at h; simp at h
    | some r =>
      rw [hf] at h
      simp only [Option.ite_none_right_eq_some, Option.some.injEq] at h
      obtain ⟨hcp, rfl⟩ := h
      have hp := List.find?_some hf
      simp only [decide_eq_true_eq] at hp
      exact ⟨hp.2, hcp, fun hx => absurd hx hc, fun _ => hp.1⟩

/-- C8: failed logins are uniform, inactive accounts are distinguishable.
Any authentication failure (principal absent, soft-deleted — such
principals never authenticate — or password mismatch) yields the single
generic Unauthorized message; correct credentials on an inactive account
yield the specific account-not-activated Unauthorized message; the two
messages differ; and the lookup matched on email when the input contains
`@`, else on username. -/
theorem C8_login_error_discrimination (checkpw : String → String → Bool)
    (st : AppState) (now : Nat) (username password : String) :
    (authenticate_user checkpw st.db username password = none →
      (login_for_access_token checkpw st now username password).1
        = .error (.unauthorized "Wrong username, email or password."))
    ∧ (∀ u, authenticate_user checkpw st.db username password = some u →
        (u.is_deleted = false ∧ checkpw password u.hashed_password = true
          ∧ (containsAtSign username = true → u.email = username)
          ∧ (containsAtSign username = false → u.username = username))
        ∧ (u.is_active = false →
          (login_for_access_token checkpw st now username password).1
            = .error (.unauthorized "Account is not activated. Please verify your email first.")))
    ∧ ("Wrong username, email or password."
        ≠ "Account is not activated. Please verify your email first.") := by
  refine ⟨?_, ?_, by decide⟩
  · intro h
    simp [login_for_access_token, h]
  · intro u hu
    refine ⟨authenticate_user_some checkpw st.db username password u hu, ?_⟩
    intro ha
    simp [login_for_access_token, hu, ha]

/-- A concrete stand-in for `bcrypt.checkpw` used in witnesses: a hash
matches exactly the tagged plaintext. -/
def modelCheckpw : String → String → Bool := fun p h => h = "hashed:" ++ p

/-- Concrete inactive principal with a matching password hash. -/
def carolInactive : Principal :=
  { id := 3, name := "Carol", username := "carol", email := "c@x.com",
    hashed_password := "hashed:pw2", is_active := false, is_superuser := false,
    tier_id := none, is_deleted := false, last_login := none }

/-- Witness state for C8: only the inactive Carol exists. -/
def c8State : AppState :=
  { db := { users := [carolInactive], next_id := 4 },
    token_blacklist := [], redis := [], queue_jobs := [], background_tasks := [] }

/-- Witness for C8: an unknown user gets the generic message; correct
credentials on the inactive account get the activation message. -/
theorem C8_witness :
    (login_for_access_token modelCheckpw c8State 0 "bob" "pw").1
      = .error (.unauthorized "Wrong username, email or password.")
    ∧ (login_for_access_token modelCheckpw c8State 0 "carol" "pw2").1
      = .error (.unauthorized "Account is not activated. Please verify your email first.") :=
  ⟨(C8_login_error_discrimination modelCheckpw c8State 0 "bob" "pw").1 (by decide),
   ((C8_login_error_discrimination modelCheckpw c8State 0 "carol" "pw2").2.1
      carolInactive (by decide)).2 rfl⟩

/-- C9: (limit, period) resolution precedence of the rate limiter — an
unauthenticated caller is keyed by client host under the defaults; an
authenticated user with a tier and a rule on the exact path gets the
rule's (limit, period); a missing rule or missing tier degrades to the
defaults without error, still keyed by the user id. -/
theorem C9_rate_limit_resolution (tiers : List Tier) (rate_limits : List RateLimitRule)
    (default_limit default_period : Nat) (user : Principal) (client_host path : String) :
    rate_limiter_resolve tiers rate_limits default_limit default_period none client_host path
      = (.host client_host, default_limit, default_period)
    ∧ (∀ t rl, crud_tiers_get tiers user.tier_id = some t →
        rate_limits.find? (fun r => r.tier_id = t.id ∧ r.path = path) = some rl →
        rate_limiter_resolve tiers rate_limits default_limit default_period
            (some user) client_host path
          = (.user_id user.id, rl.limit, rl.period))
    ∧ (∀ t, crud_tiers_get tiers user.tier_id = some t →
        rate_limits.find? (fun r => r.tier_id = t.id ∧ r.path = path) = none →
        rate_limiter_resolve tiers rate_limits default_limit default_period
            (some user) client_host path
          = (.user_id user.id, default_limit, default_period))
    ∧ (crud_tiers_get tiers user.tier_id = none →
        rate_limiter_resolve tiers rate_limits default_limit default_period
            (some user) client_host path
          = (.user_id user.id, default_limit, default_period)) := by
  refine ⟨rfl, ?_, ?_, ?_⟩
  · intro t rl ht hr
    simp only [rate_limiter_resolve, ht]
    rw [hr]
  · intro t ht hr
    simp only [rate_limiter_resolve, ht]
    rw [hr]
  · intro ht
    simp [rate_limiter_resolve, ht]

/-- Witness tier and rule for C9. -/
def goldTier : Tier := { id := 1, name := "gold" }

def goldRule : RateLimitRule := { tier_id := 1, path := "/api/v1/users", limit := 5, period := 60 }

/-- Witness principal for C9: assigned to the gold tier. -/
def tierUser : Principal :=
  { id := 9, name := "Tia", username := "tia", email := "t@x.com",
    hashed_password := "hashed:x", is_active := true, is_superuser := false,
    tier_id := some 1, is_deleted := false, last_login := none }

/-- Witness for C9: an unauthenticated caller gets the default pair keyed
by host; the tiered user on the matching path gets the rule's pair. -/
theorem C9_witness :
    rate_limiter_resolve [goldTier] [goldRule] 10 3600 none "10.0.0.1" "/api/v1/users"
      = (.host "10.0.0.1", 10, 3600)
    ∧ rate_limiter_resolve [goldTier] [goldRule] 10 3600 (some tierUser) "10.0.0.1" "/api/v1/users"
      = (.user_id 9, 5, 60) :=
  ⟨(C9_rate_limit_resolution [goldTier] [goldRule] 10 3600 tierUser "10.0.0.1" "/api/v1/users").1,
   (C9_rate_limit_resolution [goldTier] [goldRule] 10 3600 tierUser "10.0.0.1" "/api/v1/users").2.1
     goldTier goldRule (by decide) (by decide)⟩

/-- C10: the refresh flow's re-check does not exclude soft-deleted
accounts.  For a principal whose every row with its username is
soft-deleted yet whose row is active, a valid non-blacklisted refresh
token still mints a fresh access+refresh pair, while login
(`authenticate_user`, which filters `is_deleted=False`) rejects any
password and access-token authentication (`get_current_user`, same
filter) rejects the matching access token. -/
theorem C10_refresh_ignores_soft_delete (checkpw : String → String → Bool)
    (st : AppState) (u : Principal) (now expA expR : Nat)
    (hfind : st.db.users.find? (fun x => x.username = u.username) = some u)
    (hact : u.is_active = true)
    (hall : ∀ v ∈ st.db.users, v.username = u.username → v.is_deleted = true)
    (hat : containsAtSign u.username = false)
    (hbr : Jwt.signed { sub := some u.username, token_type := some .refresh, exp := expR } true
        ∉ st.token_blacklist)
    (hba : Jwt.signed { sub := some u.username, token_type := some .access, exp := expA } true
        ∉ st.token_blacklist)
    (hnr : now < expR) (hna : now < expA) :
    refresh_access_token st now
        (Jwt.signed { sub := some u.username, token_type := some .refresh, exp := expR } true)
      = .ok { access_token := create_access_token u.username now none,
              refresh_token := create_refresh_token u.username now none }
    ∧ (∀ password, authenticate_user checkpw st.db u.username password = none)
    ∧ get_current_user st now
        (Jwt.signed { sub := some u.username, token_type := some .access, exp := expA } true)
      = .error (.unauthorized "User not found or has been deleted.") := by
  have hnone : st.db.users.find? (fun x => x.username = u.username ∧ x.is_deleted = false)
      = none := by
    rw [List.find?_eq_none]
    intro v hv
    simp only [decide_eq_true_eq, not_and]
    intro h1
    simp [hall v hv h1]
  refine ⟨?_, ?_, ?_⟩
  · have hv : verify_token st.token_blacklist
        (Jwt.signed { sub := some u.username, token_type := some .refresh, exp := expR } true)
        .refresh now = some { username_or_email := u.username } := by
      simp [verify_token, jwtDecode, hbr, hnr]
    simp only [refresh_access_token, hv]
    simp [hfind, hact]
  · intro password
    simp only [authenticate_user, hat, Bool.false_eq_true, if_false]
    rw [hnone]
  · have hv : verify_token st.token_blacklist
        (Jwt.signed { sub := some u.username, token_type := some .access, exp := expA } true)
        .access now = some { username_or_email := u.username } := by
      simp [verify_token, jwtDecode, hba, hna]
    simp only [get_current_user, hv]
    simp only [hat, Bool.false_eq_true, if_false]
    rw [hnone]

/-- Concrete soft-deleted yet active principal for the C10 witness. -/
def aliceDeletedActive : Principal :=
  { id := 1, name := "Alice", username := "alice", email := "a@x.com",
    hashed_password := "hashed:pw", is_active := true, is_superuser := false,
    tier_id := none, is_deleted := true, last_login := none }

/-- Witness state for C10. -/
def c10State : AppState :=
  { db := { users := [aliceDeletedActive], next_id := 2 },
    token_blacklist := [], redis := [], queue_jobs := [], background_tasks := [] }

/-- Witness for C10 at a concrete input: the soft-deleted active Alice
refreshes successfully while login and access-token authentication reject
her. -/
theorem C10_witness :
    refresh_access_token c10State 0
        (Jwt.signed { sub := some "alice", token_type := some .refresh, exp := 200 } true)
      = .ok { access_token := create_access_token "alice" 0 none,
              refresh_token := create_refresh_token "alice" 0 none }
    ∧ authenticate_user modelCheckpw c10State.db "alice" "pw" = none
    ∧ get_current_user c10State 0
        (Jwt.signed { sub := some "alice", token_type := some .access, exp := 100 } true)
      = .error (.unauthorized "User not found or has been deleted.") := by
  have h := C10_refresh_ignores_soft_delete modelCheckpw c10State aliceDeletedActive 0 100 200
    (by decide) rfl (by decide) (by decide) (List.not_mem_nil _) (List.not_mem_nil _)
    (by decide) (by decide)
  exact ⟨h.1, h.2.1 "pw", h.2.2⟩

end FastAPIAuth
